import Mathlib

/-!
Verification of the navigation core of the shehacks-2026 repository.

The repository contains two variants of the same navigation component:
the simple AR navigation page (namespace `Nav1` below) and the integrated
navigation page with an arrival lock and a bathroom special case
(namespace `Nav3` below).  Both embed the same breadth-first path search
(`bfsPath`), the same 500 ms recognition debouncer (`acceptStable`) and
the same event-driven session-state machine (`onNodeConfirmed`,
`startRoutingFrom`, `setDestinationHandler`, `resetNav`).

Conventions of the embedding:
* JavaScript timestamps (`Date.now()`) are modelled as `Int`.
* The mutable closure state of each component is an explicit record
  (`NavState`); each event handler returns the new state together with
  the ordered list of sentences passed to `speak` during the event
  (a `setTimeout`-delayed utterance is appended after the utterance that
  precedes it, since no other event runs in between in the
  single-threaded event loop).
* Pure side effects with no state (beep, vibrate, `speechSynthesis.cancel`)
  are not modelled.
-/

/-- An edge of the landmark graph: target node and the spoken instruction,
as in the `Edge` interface of the source.  The source field is named `to`,
which is a reserved token in Lean, so it is called `toNode` here. -/
structure Edge where
  toNode : String
  say : String
deriving DecidableEq

/-- Successors of a node: the `to` fields of its declared edges. -/
def succs (edges : String → List Edge) (u : String) : List String :=
  (edges u).map Edge.toNode

/-- Path reconstruction of `bfsPath`: `path = [goal]; p = goal;
while (p !== start) { p = prev[p]; path.push(p); } path.reverse();`.
The `prev` map is an association list, looked up with `List.lookup`.
Fuel bounds the loop; on the graphs of this repository every `prev` chain
reaches `start` in fewer steps than the fuel supplied, so the fuel case
and the missing-key case are never taken. -/
def buildPath (prev : List (String × String)) (start : String) :
    Nat → String → List String → List String
  | 0, _, path => path.reverse
  | fuel + 1, p, path =>
    if p = start then path.reverse
    else
      match List.lookup p prev with
      | some p2 => buildPath prev start fuel p2 (path ++ [p2])
      | none => path.reverse

/-- The body of the `for (const e of edges[cur] || [])` loop of `bfsPath`:
threads the `prev` map, the `seen` set and the queue, and returns
`some path` on the early `return` that fires when the goal is discovered. -/
def processEdges (start goal cur : String) :
    List Edge → List (String × String) → List String → List String →
    Option (List String) × List (String × String) × List String × List String
  | [], prevm, seen, q => (none, prevm, seen, q)
  | e :: es, prevm, seen, q =>
    if e.toNode ∈ seen then processEdges start goal cur es prevm seen q
    else
      if e.toNode = goal then
        (some (buildPath ((e.toNode, cur) :: prevm) start 1000 goal [goal]),
         (e.toNode, cur) :: prevm, e.toNode :: seen, q)
      else
        processEdges start goal cur es ((e.toNode, cur) :: prevm) (e.toNode :: seen)
          (q ++ [e.toNode])

/-- The `while (q.length)` loop of `bfsPath`.  Each iteration shifts the head
of the queue and processes its edges.  Fuel bounds the loop; since every
enqueue is guarded by insertion into `seen`, the loop runs at most once per
node of the (finite) graph, so the fuel of 1000 supplied by `bfsPathOn` is
never exhausted on the graphs of this repository. -/
def bfsLoop (edges : String → List Edge) (start goal : String) :
    Nat → List String → List (String × String) → List String → Option (List String)
  | 0, _, _, _ => none
  | fuel + 1, q, prevm, seen =>
    match q with
    | [] => none
    | cur :: rest =>
      match processEdges start goal cur (edges cur) prevm seen rest with
      | (some path, _, _, _) => some path
      | (none, prevm2, seen2, q2) => bfsLoop edges start goal fuel q2 prevm2 seen2

/-- The source function `bfsPath(start, goal)`, parameterised by the edge
map it closes over.  Returns `[start]` when `start === goal`, otherwise
runs the breadth-first search. -/
def bfsPathOn (edges : String → List Edge) (start goal : String) : Option (List String) :=
  if start = goal then some [start]
  else bfsLoop edges start goal 1000 [start] [] [start]

/-! ### Reference definitions for graph reachability and walks

These are the specification-side notions used to state the shortest-path
claims: they are defined from the directed edge relation only, not from
the search algorithm. -/

/-- Nodes reachable from `s` by following at most `n` directed edges. -/
def reachInSteps (edges : String → List Edge) : Nat → String → List String
  | 0, s => [s]
  | n + 1, s => s :: ((succs edges s).map (reachInSteps edges n)).foldr (· ++ ·) []

/-- Reachability: `Reaches edges a b` holds when `b` is reachable from `a` by following directed
edges (zero or more). -/
inductive Reaches (edges : String → List Edge) : String → String → Prop
  | refl (a : String) : Reaches edges a a
  | head {a b c : String} : b ∈ succs edges a → Reaches edges b c → Reaches edges a c

/-- A sequence of landmark ids is a directed walk: every consecutive pair
is a directed edge of the graph. -/
def isWalk (edges : String → List Edge) : List String → Bool
  | [] => true
  | [_] => true
  | u :: v :: rest => decide (v ∈ succs edges u) && isWalk edges (v :: rest)

theorem mem_foldr_append {α β : Type} {x : β} {f : α → List β} {l : List α} :
    x ∈ (l.map f).foldr (· ++ ·) [] ↔ ∃ c ∈ l, x ∈ f c := by
  induction l with
  | nil => simp
  | cons a l ih =>
    simp only [List.map_cons, List.foldr_cons, List.mem_append, ih, List.mem_cons]
    constructor
    · rintro (h | ⟨c, hc, hx⟩)
      · exact ⟨a, Or.inl rfl, h⟩
      · exact ⟨c, Or.inr hc, hx⟩
    · rintro ⟨c, (rfl | hc), hx⟩
      · exact Or.inl hx
      · exact Or.inr ⟨c, hc, hx⟩

theorem mem_reach_succ {edges : String → List Edge} {x s : String} {n : Nat} :
    x ∈ reachInSteps edges (n + 1) s ↔
      x = s ∨ ∃ c ∈ succs edges s, x ∈ reachInSteps edges n c := by
  rw [show reachInSteps edges (n + 1) s =
        s :: ((succs edges s).map (reachInSteps edges n)).foldr (· ++ ·) [] from rfl]
  rw [List.mem_cons, mem_foldr_append]

theorem reach_mono {edges : String → List Edge} {x s : String} :
    ∀ {n : Nat}, x ∈ reachInSteps edges n s → x ∈ reachInSteps edges (n + 1) s := by
  intro n
  induction n generalizing s with
  | zero =>
    intro h
    simp only [reachInSteps, List.mem_singleton] at h
    subst h
    rw [mem_reach_succ]
    exact Or.inl rfl
  | succ n ih =>
    intro h
    rw [mem_reach_succ] at h
    rw [mem_reach_succ]
    rcases h with h | ⟨c, hc, hx⟩
    · exact Or.inl h
    · exact Or.inr ⟨c, hc, ih hx⟩

theorem reach_mono_le {edges : String → List Edge} {x s : String} {m n : Nat}
    (hmn : m ≤ n) (h : x ∈ reachInSteps edges m s) : x ∈ reachInSteps edges n s := by
  induction n with
  | zero =>
    have : m = 0 := Nat.le_zero.mp hmn
    subst this
    exact h
  | succ n ih =>
    rcases Nat.le_succ_iff.mp hmn with h' | h'
    · exact reach_mono (ih h')
    · subst h'
      exact h

theorem reaches_of_steps {edges : String → List Edge} :
    ∀ {n : Nat} {a b : String}, b ∈ reachInSteps edges n a → Reaches edges a b := by
  intro n
  induction n with
  | zero =>
    intro a b h
    simp only [reachInSteps, List.mem_singleton] at h
    subst h
    exact Reaches.refl _
  | succ n ih =>
    intro a b h
    rw [mem_reach_succ] at h
    rcases h with rfl | ⟨c, hc, hx⟩
    · exact Reaches.refl _
    · exact Reaches.head hc (ih hx)

theorem reaches_closed {edges : String → List Edge} {a b : String} {S : List String}
    (ha : a ∈ S) (hS : ∀ u ∈ S, ∀ v ∈ succs edges u, v ∈ S)
    (h : Reaches edges a b) : b ∈ S := by
  induction h with
  | refl => exact ha
  | head hstep _ ih => exact ih (hS _ ha _ hstep)

theorem walk_reach {edges : String → List Edge} :
    ∀ (q : List String) (a b : String), isWalk edges q = true →
      q.head? = some a → q.getLast? = some b → b ∈ reachInSteps edges (q.length - 1) a := by
  intro q
  induction q with
  | nil =>
    intro a b _ hh _
    simp at hh
  | cons u rest ih =>
    intro a b hw hh hl
    cases rest with
    | nil =>
      simp only [List.head?_cons, Option.some.injEq] at hh
      have hl' : u = b := by simpa [List.getLast?] using hl
      subst hh
      subst hl'
      simp [reachInSteps]
    | cons v rest2 =>
      simp only [List.head?_cons, Option.some.injEq] at hh
      subst hh
      simp only [isWalk, Bool.and_eq_true, decide_eq_true_eq] at hw
      have hl2 : (v :: rest2).getLast? = some b := by
        rw [List.getLast?_cons_cons] at hl
        exact hl
      have hb := ih v b hw.2 (by simp) hl2
      simp only [List.length_cons, Nat.add_sub_cancel] at hb ⊢
      rw [mem_reach_succ]
      exact Or.inr ⟨v, hw.1, hb⟩

theorem walk_min {edges : String → List Edge} {a b : String} {n : Nat}
    (hnot : b ∉ reachInSteps edges n a) :
    ∀ q : List String, isWalk edges q = true → q.head? = some a →
      q.getLast? = some b → n + 2 ≤ q.length := by
  intro q hw hh hl
  by_contra hlen
  have h1 : 1 ≤ q.length := by
    cases q with
    | nil => simp at hh
    | cons x t => simp [List.length_cons]
  have hle : q.length - 1 ≤ n := by omega
  exact hnot (reach_mono_le hle (walk_reach q a b hw hh hl))

theorem head?_some_length {q : List String} {a : String} (h : q.head? = some a) :
    1 ≤ q.length := by
  cases q with
  | nil => simp at h
  | cons x t => simp [List.length_cons]

theorem buildPath_ne_nil (prev : List (String × String)) (start : String) :
    ∀ (fuel : Nat) (p : String) (path : List String), path ≠ [] →
      buildPath prev start fuel p path ≠ [] := by
  intro fuel
  induction fuel with
  | zero =>
    intro p path hp
    simpa [buildPath] using hp
  | succ fuel ih =>
    intro p path hp
    unfold buildPath
    split
    · simpa using hp
    · cases List.lookup p prev with
      | none => simpa using hp
      | some p2 =>
        simp only []
        exact ih p2 (path ++ [p2]) (by simp)

theorem processEdges_some_ne_nil (start goal cur : String) :
    ∀ (es : List Edge) (prevm : List (String × String)) (seen q : List String)
      (path : List String),
      (processEdges start goal cur es prevm seen q).1 = some path → path ≠ [] := by
  intro es
  induction es with
  | nil =>
    intro prevm seen q path h
    simp [processEdges] at h
  | cons e es ih =>
    intro prevm seen q path h
    unfold processEdges at h
    split at h
    · exact ih _ _ _ _ h
    · split at h
      · simp only [Option.some.injEq] at h
        subst h
        exact buildPath_ne_nil _ _ _ _ _ (by simp)
      · exact ih _ _ _ _ h

theorem bfsLoop_some_ne_nil (edges : String → List Edge) (start goal : String) :
    ∀ (fuel : Nat) (q : List String) (prevm : List (String × String))
      (seen : List String) (path : List String),
      bfsLoop edges start goal fuel q prevm seen = some path → path ≠ [] := by
  intro fuel
  induction fuel with
  | zero =>
    intro q prevm seen path h
    simp [bfsLoop] at h
  | succ fuel ih =>
    intro q prevm seen path h
    unfold bfsLoop at h
    cases q with
    | nil => simp at h
    | cons cur rest =>
      simp only [] at h
      rcases hpe : processEdges start goal cur (edges cur) prevm seen rest with
        ⟨found, prevm2, seen2, q2⟩
      rw [hpe] at h
      cases found with
      | some p =>
        simp only [Option.some.injEq] at h
        subst h
        exact processEdges_some_ne_nil _ _ _ _ _ _ _ p (by rw [hpe])
      | none => exact ih _ _ _ _ h

theorem bfsPathOn_some_ne_nil {edges : String → List Edge} {start goal : String}
    {path : List String} (h : bfsPathOn edges start goal = some path) : path ≠ [] := by
  unfold bfsPathOn at h
  split at h
  · simp only [Option.some.injEq] at h
    subst h
    simp
  · exact bfsLoop_some_ne_nil edges start goal 1000 _ _ _ _ h

/-! ## Nav1: the simple AR navigation page

Embedding of the navigation closure of the simple variant: its landmark
graph (`two`, `washroom`, `couch`, `painting`, `caution`, `door`), its
session state and its event handlers. -/

namespace Nav1

/-- The `nodes` table: landmark id to human-readable label (`nodes[id].label`).
Unknown ids return `""` (in the source such a lookup would throw; it is
never performed on the states considered). -/
def label : String → String
  | "two" => "2 sign"
  | "washroom" => "Washroom"
  | "couch" => "Couch"
  | "painting" => "Painting"
  | "caution" => "Caution sign"
  | "door" => "Door"
  | _ => ""

/-- All landmark ids of the `nodes` table. -/
def nodeIds : List String := ["two", "washroom", "couch", "painting", "caution", "door"]

/-- The `ACTIVE_NODES` set. -/
def ACTIVE_NODES : List String := ["two", "washroom", "caution", "door"]

/-- The `edges` table of the simple variant (`edges[id] || []` for absent
keys). -/
def edges : String → List Edge
  | "two" =>
    [⟨"washroom", "Landmark confirmed: 2 sign. Take a right to reach the washroom."⟩]
  | "washroom" =>
    [⟨"caution", "Landmark confirmed: washroom. Go straight to reach the caution sign."⟩,
     ⟨"two", "Landmark confirmed: washroom. Go straight to reach the 2 sign."⟩]
  | "caution" =>
    [⟨"door", "Landmark confirmed: caution sign. Take a right to reach the door."⟩,
     ⟨"washroom", "Landmark confirmed: caution sign. Take a left to reach the washroom."⟩]
  | "door" =>
    [⟨"caution", "Landmark confirmed: door. Turn around, then go straight to reach the caution sign."⟩]
  | _ => []

/-- Function `bfsPath` of the simple variant. -/
def bfsPath (start goal : String) : Option (List String) :=
  bfsPathOn edges start goal

/-- The mutable closure state of the simple variant. -/
structure NavState where
  destinationNode : String
  currentNode : Option String
  path : Option (List String)
  pathStep : Nat
  segmentPrompted : Bool
  lastConfirmedAt : Int
  lastSpoken : String
deriving DecidableEq

/-- Function `speak(msg)`: records `lastSpoken` and emits the sentence.  The
`interrupt` option and the `setStatus` UI update carry no session state. -/
def speak (msg : String) (s : NavState) : NavState × List String :=
  ({ s with lastSpoken := msg }, [msg])

/-- The initial closure state: `destination` defaults to `'two'`, all other
locals start cleared. -/
def initState : NavState :=
  { destinationNode := "two", currentNode := none, path := none, pathStep := 0,
    segmentPrompted := false, lastConfirmedAt := 0, lastSpoken := "" }

/-- Function `resetNav()`. -/
def resetNav (s : NavState) : NavState × List String :=
  speak "Pick a destination, then scan any landmark to start."
    { s with currentNode := none, path := none, pathStep := 0,
             segmentPrompted := false, lastConfirmedAt := 0 }

/-- Function `setDestinationHandler(newDest)`. -/
def setDestinationHandler (newDest : String) (s : NavState) : NavState × List String :=
  speak ("Destination set to " ++ label newDest ++ ". Scan any landmark to start.")
    { s with destinationNode := newDest, currentNode := none, path := none,
             pathStep := 0, segmentPrompted := false, lastConfirmedAt := 0 }

/-- Function `getEdgeInstruction(from, to)`. -/
def getEdgeInstruction (frm target : String) : String :=
  match (edges frm).find? (fun x => x.toNode == target) with
  | some e => e.say
  | none => "Landmark confirmed. Continue forward carefully and scan again."

/-- Function `announceNextInstruction()`. -/
def announceNextInstruction (s : NavState) : NavState × List String :=
  match s.path with
  | none => (s, [])
  | some path =>
    if s.pathStep ≥ path.length - 1 then
      speak "You have arrived." s
    else
      speak (getEdgeInstruction (path.getD s.pathStep "") (path.getD (s.pathStep + 1) "")) s

/-- Function `startRoutingFrom(nodeId)`; the trailing
`setTimeout(announceNextInstruction, 350)` utterance is appended after the
`Starting at` utterance. -/
def startRoutingFrom (nodeId : String) (now : Int) (s : NavState) : NavState × List String :=
  let s := { s with currentNode := some nodeId,
                    path := bfsPath nodeId s.destinationNode,
                    pathStep := 0, segmentPrompted := false, lastConfirmedAt := now }
  match s.path with
  | none => speak "No route found from here." s
  | some _ =>
    let r1 := speak ("Starting at " ++ label nodeId ++ ".") s
    let r2 := announceNextInstruction r1.1
    (r2.1, r1.2 ++ r2.2)

/-- Function `onNodeConfirmed(nodeId)` of the simple variant. -/
def onNodeConfirmed (nodeId : String) (now : Int) (s : NavState) : NavState × List String :=
  if nodeId ∈ ACTIVE_NODES then
    let s := { s with lastConfirmedAt := now, segmentPrompted := false }
    match s.currentNode, s.path with
    | some cur, some path =>
      if s.pathStep < path.length - 1 ∧ path.getD (s.pathStep + 1) "" = nodeId then
        announceNextInstruction
          { s with pathStep := s.pathStep + 1, currentNode := some nodeId }
      else if nodeId ≠ cur then
        let s := { s with currentNode := some nodeId,
                          path := bfsPath nodeId s.destinationNode, pathStep := 0 }
        match s.path with
        | none => speak "I cannot find a route from here." s
        | some _ =>
          let r1 := speak ("Re routing from " ++ label nodeId ++ ".") s
          let r2 := announceNextInstruction r1.1
          (r2.1, r1.2 ++ r2.2)
      else announceNextInstruction s
    | _, _ => startRoutingFrom nodeId now s
  else (s, [])

/-- States reachable from the initial closure state through the three
event handlers: landmark confirmed, destination changed, reset. -/
inductive ReachableState : NavState → Prop
  | init : ReachableState initState
  | confirm {s : NavState} (nodeId : String) (now : Int) :
      ReachableState s → ReachableState (onNodeConfirmed nodeId now s).1
  | setDest {s : NavState} (newDest : String) :
      ReachableState s → ReachableState (setDestinationHandler newDest s).1
  | reset {s : NavState} :
      ReachableState s → ReachableState (resetNav s).1

end Nav1

/-! ## Nav3: the integrated navigation page

Embedding of the navigation closure of the integrated variant: graph over
`elevator`, `washroom`, `mainhall`, `exitdoor`, an `arrived` lock, a
`lastNode` field and a special bathroom arrival message. -/

namespace Nav3

/-- The `nodes` table of the integrated variant. -/
def label : String → String
  | "elevator" => "Elevator"
  | "washroom" => "Bathroom"
  | "mainhall" => "Main hall"
  | "exitdoor" => "Exit door"
  | _ => ""

/-- All landmark ids of the `nodes` table. -/
def nodeIds : List String := ["elevator", "washroom", "mainhall", "exitdoor"]

/-- The `ACTIVE_NODES` set. -/
def ACTIVE_NODES : List String := ["elevator", "washroom", "mainhall", "exitdoor"]

/-- The `edges` table of the integrated variant. -/
def edges : String → List Edge
  | "elevator" => [⟨"washroom", "Go right and walk straight."⟩]
  | "washroom" =>
    [⟨"mainhall", "Walk straight."⟩,
     ⟨"elevator", "Walk straight."⟩]
  | "mainhall" =>
    [⟨"exitdoor", "Go right and walk straight."⟩,
     ⟨"washroom", "Take a left then walk straight."⟩]
  | "exitdoor" => [⟨"mainhall", "Do a 180, then walk straight."⟩]
  | _ => []

/-- Function `bfsPath` of the integrated variant. -/
def bfsPath (start goal : String) : Option (List String) :=
  bfsPathOn edges start goal

/-- The mutable closure state of the integrated variant. -/
structure NavState where
  destinationNode : String
  currentNode : Option String
  lastNode : Option String
  path : Option (List String)
  pathStep : Nat
  segmentPrompted : Bool
  lastConfirmedAt : Int
  arrived : Bool
  lastSpoken : String
deriving DecidableEq

/-- Function `speak(msg)` of the integrated variant. -/
def speak (msg : String) (s : NavState) : NavState × List String :=
  ({ s with lastSpoken := msg }, [msg])

/-- The initial closure state: `destination` defaults to `'exitdoor'`. -/
def initState : NavState :=
  { destinationNode := "exitdoor", currentNode := none, lastNode := none,
    path := none, pathStep := 0, segmentPrompted := false, lastConfirmedAt := 0,
    arrived := false, lastSpoken := "" }

/-- Function `finishArrival(msg)`: sets the arrival lock, clears the route and speaks
the arrival sentence. -/
def finishArrival (msg : String) (s : NavState) : NavState × List String :=
  speak (msg ++ " Choose next destination.")
    { s with arrived := true, path := none, pathStep := 0, segmentPrompted := true }

/-- Function `resetNav()`. -/
def resetNav (s : NavState) : NavState × List String :=
  speak "Pick a destination to start."
    { s with currentNode := none, lastNode := none, path := none, pathStep := 0,
             segmentPrompted := false, lastConfirmedAt := 0, arrived := false }

/-- Function `setDestinationHandler(newDest)`. -/
def setDestinationHandler (newDest : String) (s : NavState) : NavState × List String :=
  speak ("Destination set to " ++ label newDest ++ ". Scan the room so we can locate you.")
    { s with destinationNode := newDest, currentNode := none, lastNode := none,
             path := none, pathStep := 0, segmentPrompted := false,
             lastConfirmedAt := 0, arrived := false }

/-- Function `getEdgeInstruction(from, to)`. -/
def getEdgeInstruction (frm target : String) : String :=
  match (edges frm).find? (fun x => x.toNode == target) with
  | some e => e.say
  | none => "Keep moving forward with caution."

/-- Function `announceNextInstruction()` of the integrated variant: on the last step
it calls `finishArrival`. -/
def announceNextInstruction (s : NavState) : NavState × List String :=
  match s.path, s.currentNode with
  | some path, some _ =>
    if s.pathStep ≥ path.length - 1 then
      finishArrival ("You have arrived at " ++ label s.destinationNode ++ ".") s
    else
      speak ("You are at " ++ label (path.getD s.pathStep "") ++ ". " ++
             getEdgeInstruction (path.getD s.pathStep "") (path.getD (s.pathStep + 1) "")) s
  | _, _ => (s, [])

/-- Function `bathroomArrivalMessage(cameFrom)`: from the elevator the turn is left,
otherwise right. -/
def bathroomArrivalMessage (cameFrom : Option String) (s : NavState) : NavState × List String :=
  let turn := if cameFrom = some "elevator" then "Go left." else "Go right."
  finishArrival
    ("You are at " ++ label "washroom" ++ ". " ++ turn ++
     " The door is in front of you. Walk with caution and open the door to enter.") s

/-- Function `startRoutingFrom(nodeId)` of the integrated variant. -/
def startRoutingFrom (nodeId : String) (now : Int) (s : NavState) : NavState × List String :=
  let s := { s with lastNode := s.currentNode, currentNode := some nodeId,
                    path := bfsPath nodeId s.destinationNode,
                    pathStep := 0, segmentPrompted := false, lastConfirmedAt := now }
  match s.path with
  | none => speak "No route found from here." s
  | some _ => announceNextInstruction s

/-- Function `onNodeConfirmed(nodeId)` of the integrated variant.  The arrival lock
is checked before anything is updated; the `setTimeout`-delayed
re-route instruction is appended after the re-route utterance. -/
def onNodeConfirmed (nodeId : String) (now : Int) (s : NavState) : NavState × List String :=
  if nodeId ∈ ACTIVE_NODES then
    if s.arrived then (s, [])
    else
      let cameFrom := s.currentNode
      let s := { s with lastConfirmedAt := now, segmentPrompted := false }
      match s.currentNode, s.path with
      | some cur, some path =>
        if s.pathStep < path.length - 1 ∧ path.getD (s.pathStep + 1) "" = nodeId then
          let s := { s with pathStep := s.pathStep + 1, lastNode := cameFrom,
                            currentNode := some nodeId }
          if s.destinationNode = "washroom" ∧ nodeId = "washroom" then
            bathroomArrivalMessage s.lastNode s
          else announceNextInstruction s
        else if nodeId ≠ cur then
          let s := { s with lastNode := cameFrom, currentNode := some nodeId,
                            path := bfsPath nodeId s.destinationNode, pathStep := 0 }
          match s.path with
          | none => speak "I cannot find a route from here." s
          | some _ =>
            if s.destinationNode = "washroom" ∧ nodeId = "washroom" then
              bathroomArrivalMessage s.lastNode s
            else
              let r1 := speak ("You are at " ++ label nodeId ++ ". Re routing.") s
              let r2 := announceNextInstruction r1.1
              (r2.1, r1.2 ++ r2.2)
        else announceNextInstruction s
      | _, _ => startRoutingFrom nodeId now s
  else (s, [])

/-- States reachable from the initial closure state through the three
event handlers. -/
inductive ReachableState : NavState → Prop
  | init : ReachableState initState
  | confirm {s : NavState} (nodeId : String) (now : Int) :
      ReachableState s → ReachableState (onNodeConfirmed nodeId now s).1
  | setDest {s : NavState} (newDest : String) :
      ReachableState s → ReachableState (setDestinationHandler newDest s).1
  | reset {s : NavState} :
      ReachableState s → ReachableState (resetNav s).1

end Nav3

/-! ## Recognition debouncer

Both variants contain the identical `acceptStable` closure with
`stableMs = 500`, a `candidate` id and a `candidateSince` timestamp. -/

/-- The `stableMs` constant (milliseconds). -/
def stableMs : Int := 500

/-- The mutable state of the debouncer closure: `candidate` starts `null`
and `candidateSince` starts 0. -/
structure DebounceState where
  candidate : Option String
  candidateSince : Int
deriving DecidableEq

/-- Function `acceptStable(nodeId)` evaluated at time `now`: returns the boolean
result together with the updated closure state. -/
def acceptStable (s : DebounceState) (nodeId : String) (now : Int) : Bool × DebounceState :=
  if s.candidate ≠ some nodeId then
    (false, { candidate := some nodeId, candidateSince := now })
  else
    (decide (now - s.candidateSince ≥ stableMs), s)

/-! ## Voice keyword matching

The `recognition.onresult` handlers of the integrated variant and of the
voice controller lower-case the transcript and scan the same keyword table
in declaration order, taking the first keyword contained in the
transcript. -/

/-- The `keywordMap` table, in declaration (iteration) order. -/
def keywordMap : List (String × String) :=
  [("washroom", "washroom"), ("wash room", "washroom"), ("bathroom", "washroom"),
   ("bath room", "washroom"), ("restroom", "washroom"), ("elevator", "elevator"),
   ("main hall", "mainhall"), ("mainhall", "mainhall"), ("exit door", "exitdoor"),
   ("exitdoor", "exitdoor"), ("exit", "exitdoor")]

/-- Predicate for `transcript.includes(keyword)`: the keyword occurs as a contiguous
substring of the transcript. -/
def strIncludes (transcript keyword : String) : Bool :=
  decide (keyword.data <:+: transcript.data)

/-- The `for (const [keyword, dest] of Object.entries(keywordMap))` loop
with its `break`: first matching entry wins. -/
def findKeyword (transcript : String) : List (String × String) → Option String
  | [] => none
  | kv :: rest =>
    if strIncludes transcript kv.1 then some kv.2 else findKeyword transcript rest

/-- Model of `rawTranscript.toLowerCase()`: character-wise lower-casing.  (The
built-in `String.toLower` is extensionally the same map but its
position-based implementation does not reduce in the kernel, so the map
over the character list is spelled out.) -/
def lowerString (t : String) : String := ⟨t.data.map Char.toLower⟩

/-- The destination selected from a raw transcript: the transcript is
lower-cased, then the keyword table is scanned in order. -/
def matchDestination (rawTranscript : String) : Option String :=
  findKeyword (lowerString rawTranscript) keywordMap

/-! ## Claim theorems -/

/-- C6: a call of the debouncer with an id different from the stored
candidate records the id and the call time and returns `false`; a call with
the stored candidate returns `true` iff at least `stableMs` has elapsed
since the candidate was first recorded (and leaves the state unchanged);
once the window has elapsed, repeated calls with the same candidate at any
later time keep returning `true`. -/
theorem acceptStable_spec :
    (∀ (s : DebounceState) (nodeId : String) (now : Int),
        s.candidate ≠ some nodeId →
        acceptStable s nodeId now =
          (false, { candidate := some nodeId, candidateSince := now })) ∧
    (∀ (s : DebounceState) (nodeId : String) (now : Int),
        s.candidate = some nodeId →
        ((acceptStable s nodeId now).1 = true ↔ stableMs ≤ now - s.candidateSince) ∧
        (acceptStable s nodeId now).2 = s) ∧
    (∀ (s : DebounceState) (nodeId : String) (now now2 : Int),
        s.candidate = some nodeId → (acceptStable s nodeId now).1 = true → now ≤ now2 →
        (acceptStable s nodeId now2).1 = true ∧ (acceptStable s nodeId now2).2 = s) := by
  refine ⟨?_, ?_, ?_⟩
  · intro s nodeId now h
    simp [acceptStable, h]
  · intro s nodeId now h
    simp [acceptStable, h, ge_iff_le]
  · intro s nodeId now now2 h h1 h12
    simp only [acceptStable, h, ne_eq, not_true_eq_false, if_false, if_neg,
      decide_eq_true_eq, ge_iff_le] at h1 ⊢
    refine ⟨by omega, ?_⟩
    simp [acceptStable, h]

/-- Witness for `acceptStable_spec` at concrete inputs. -/
theorem acceptStable_spec_witness :
    acceptStable ⟨none, 0⟩ "two" 5 = (false, ⟨some "two", 5⟩) ∧
    ((acceptStable ⟨some "two", 5⟩ "two" 505).1 = true ↔
      stableMs ≤ (505 : Int) - (⟨some "two", 5⟩ : DebounceState).candidateSince) ∧
    (acceptStable ⟨some "two", 5⟩ "two" 600).1 = true :=
  ⟨acceptStable_spec.1 ⟨none, 0⟩ "two" 5 (by decide),
   (acceptStable_spec.2.1 ⟨some "two", 5⟩ "two" 505 rfl).1,
   (acceptStable_spec.2.2 ⟨some "two", 5⟩ "two" 505 600 rfl (by decide) (by decide)).1⟩

theorem findKeyword_eq_some {t d : String} :
    ∀ {l : List (String × String)}, findKeyword t l = some d →
      ∃ pre kv post, l = pre ++ kv :: post ∧ kv.2 = d ∧
        strIncludes t kv.1 = true ∧ ∀ kv2 ∈ pre, strIncludes t kv2.1 = false := by
  intro l
  induction l with
  | nil => intro h; simp [findKeyword] at h
  | cons kv rest ih =>
    intro h
    unfold findKeyword at h
    by_cases hk : strIncludes t kv.1 = true
    · rw [if_pos hk] at h
      simp only [Option.some.injEq] at h
      exact ⟨[], kv, rest, rfl, h, hk, by simp⟩
    · rw [if_neg hk] at h
      obtain ⟨pre, kv1, post, hsplit, hd, hinc, hpre⟩ := ih h
      refine ⟨kv :: pre, kv1, post, by rw [hsplit]; rfl, hd, hinc, ?_⟩
      intro kv2 h2
      rcases List.mem_cons.mp h2 with rfl | h2
      · exact Bool.not_eq_true _ ▸ Bool.of_not_eq_true hk
      · exact hpre kv2 h2

/-- C9: the voice-command handler selects the destination of the first
entry of the keyword table (in iteration order) whose keyword occurs as a
substring of the lower-cased utterance; in particular the utterance
"please take me to the bathroom" matches the `bathroom → washroom` entry. -/
theorem voice_first_match :
    matchDestination "please take me to the bathroom" = some "washroom" ∧
    (∀ (t d : String), matchDestination t = some d →
      ∃ pre kv post, keywordMap = pre ++ kv :: post ∧ kv.2 = d ∧
        strIncludes (lowerString t) kv.1 = true ∧
        ∀ kv2 ∈ pre, strIncludes (lowerString t) kv2.1 = false) :=
  ⟨by decide, fun _ _ h => findKeyword_eq_some h⟩

/-- Witness for `voice_first_match` at the concrete utterance of the claim. -/
theorem voice_first_match_witness :
    ∃ pre kv post, keywordMap = pre ++ kv :: post ∧ kv.2 = "washroom" ∧
      strIncludes (lowerString "please take me to the bathroom") kv.1 = true ∧
      ∀ kv2 ∈ pre, strIncludes (lowerString "please take me to the bathroom") kv2.1 = false :=
  voice_first_match.2 "please take me to the bathroom" "washroom" (by decide)

/-- Concrete route traversal of the integrated variant, destination
`exitdoor`: confirm `elevator`, `washroom`, `mainhall`, `exitdoor`. -/
def c2s1 : Nav3.NavState × List String := Nav3.onNodeConfirmed "elevator" 1 Nav3.initState

/-- Second confirmation of the traversal. -/
def c2s2 : Nav3.NavState × List String := Nav3.onNodeConfirmed "washroom" 2 c2s1.1

/-- Third confirmation of the traversal. -/
def c2s3 : Nav3.NavState × List String := Nav3.onNodeConfirmed "mainhall" 3 c2s2.1

/-- Fourth confirmation of the traversal: reaches the destination. -/
def c2s4 : Nav3.NavState × List String := Nav3.onNodeConfirmed "exitdoor" 4 c2s3.1

/-- Concrete route traversal of the simple variant, destination
`washroom`: set the destination, then confirm `two` and `washroom`. -/
def c2t0 : Nav1.NavState × List String := Nav1.setDestinationHandler "washroom" Nav1.initState

/-- First confirmation of the simple-variant traversal. -/
def c2t1 : Nav1.NavState × List String := Nav1.onNodeConfirmed "two" 1 c2t0.1

/-- Second confirmation of the simple-variant traversal: reaches the
destination and announces arrival. -/
def c2t2 : Nav1.NavState × List String := Nav1.onNodeConfirmed "washroom" 2 c2t1.1

/-- Further confirmation of the final landmark after arrival, in the
simple variant. -/
def c2t3 : Nav1.NavState × List String := Nav1.onNodeConfirmed "washroom" 3 c2t2.1

/-- C2 counterexample: the simple variant has no arrival lock.  After the
route to `washroom` is finished and arrival has been announced, a further
confirmation of the final landmark is not ignored: it changes the state
and re-announces `You have arrived.`, so the arrival announcement fires
twice on this route. -/
theorem arrival_repeat_counterexample :
    c2t2.2 = ["You have arrived."] ∧
    c2t3.2 = ["You have arrived."] ∧
    c2t3.1 ≠ c2t2.1 ∧
    (c2t1.2 ++ c2t2.2 ++ c2t3.2).count "You have arrived." = 2 := by decide

/-- C2 amended: the arrival lock exists only in the integrated variant.
There, once `arrived` is set, every landmark confirmation is ignored
entirely (state unchanged, nothing announced), and on a concrete route
the arrival announcement fires exactly once, the final state is arrived,
and a further confirmation of the final landmark is a no-op.  In the
simple variant, which has no `arrived` flag, a confirmation of the
unchanged final landmark once the route index has reached the last step
re-announces `You have arrived.` instead of being ignored. -/
theorem arrived_absorbs_confirmations :
    (∀ (s : Nav3.NavState) (nodeId : String) (now : Int),
        s.arrived = true → Nav3.onNodeConfirmed nodeId now s = (s, [])) ∧
    ((c2s1.2 ++ c2s2.2 ++ c2s3.2 ++ c2s4.2).count
        "You have arrived at Exit door. Choose next destination." = 1 ∧
      c2s4.1.arrived = true ∧
      Nav3.onNodeConfirmed "exitdoor" 5 c2s4.1 = (c2s4.1, [])) ∧
    (∀ (s : Nav1.NavState) (nodeId : String) (now : Int) (p : List String),
        nodeId ∈ Nav1.ACTIVE_NODES → s.currentNode = some nodeId → s.path = some p →
        p.length ≤ s.pathStep + 1 →
        (Nav1.onNodeConfirmed nodeId now s).2 = ["You have arrived."]) := by
  refine ⟨?_, ⟨by decide, by decide, by decide⟩, ?_⟩
  · intro s nodeId now h
    unfold Nav3.onNodeConfirmed
    by_cases hA : nodeId ∈ Nav3.ACTIVE_NODES
    · rw [if_pos hA, h]
      simp
    · rw [if_neg hA]
  · intro s nodeId now p hA hcur hpath hge
    obtain ⟨dest, cur, path, step, seg, lc, ls⟩ := s
    simp only [] at hcur hpath hge
    subst hcur hpath
    have hgn : ¬ (step < p.length - 1 ∧ p[step + 1]?.getD "" = nodeId) := by
      intro h
      omega
    simp [Nav1.onNodeConfirmed, hA, hgn, Nav1.announceNextInstruction, hge, Nav1.speak]

/-- Witness for the hypothesis-bearing parts of
`arrived_absorbs_confirmations`: a concrete arrived state of the
integrated variant, and the finished simple-variant route of the
counterexample trace. -/
theorem arrived_absorbs_confirmations_witness :
    Nav3.onNodeConfirmed "elevator" 9 c2s4.1 = (c2s4.1, []) ∧
    (Nav1.onNodeConfirmed "washroom" 9 c2t2.1).2 = ["You have arrived."] :=
  ⟨arrived_absorbs_confirmations.1 c2s4.1 "elevator" 9 (by decide),
   arrived_absorbs_confirmations.2.2 c2t2.1 "washroom" 9 ["two", "washroom"]
     (by decide) (by decide) (by decide) (by decide)⟩

/-- A state of the integrated variant whose destination `couch` is not a
node of its graph, so no route to it exists from anywhere. -/
def noRouteState : Nav3.NavState :=
  { destinationNode := "couch", currentNode := none, lastNode := none, path := none,
    pathStep := 0, segmentPrompted := false, lastConfirmedAt := 0,
    arrived := false, lastSpoken := "" }

/-- C1 counterexample: in the `no route found` case the failure is
announced, but `currentNode` is set to the confirmed landmark instead of
staying unset as it was before the event. -/
theorem noRoute_claim_counterexample :
    Nav3.bfsPath "elevator" noRouteState.destinationNode = none ∧
    noRouteState.currentNode = none ∧
    (Nav3.onNodeConfirmed "elevator" 7 noRouteState).2 = ["No route found from here."] ∧
    (Nav3.onNodeConfirmed "elevator" 7 noRouteState).1.currentNode = some "elevator" :=
  ⟨by decide, rfl, by decide, by decide⟩

/-- C1 amended: when a landmark is confirmed in the unlocated state and no
route exists from it to the destination, both variants announce the
failure and leave the route unset, so the machine keeps behaving as
`Unrouted` (the next confirmation restarts localization) and the
destination is untouched; however `currentNode` is set to the confirmed
landmark (together with the bookkeeping fields of the event), not left
unset. -/
theorem noRoute_announces_and_stays_unrouted :
    (∀ (s : Nav1.NavState) (nodeId : String) (now : Int),
        nodeId ∈ Nav1.ACTIVE_NODES → s.currentNode = none →
        Nav1.bfsPath nodeId s.destinationNode = none →
        Nav1.onNodeConfirmed nodeId now s =
          ({ s with currentNode := some nodeId, path := none, pathStep := 0,
                    segmentPrompted := false, lastConfirmedAt := now,
                    lastSpoken := "No route found from here." },
           ["No route found from here."])) ∧
    (∀ (s : Nav3.NavState) (nodeId : String) (now : Int),
        nodeId ∈ Nav3.ACTIVE_NODES → s.arrived = false → s.currentNode = none →
        Nav3.bfsPath nodeId s.destinationNode = none →
        Nav3.onNodeConfirmed nodeId now s =
          ({ s with currentNode := some nodeId, lastNode := none, path := none,
                    pathStep := 0, segmentPrompted := false, lastConfirmedAt := now,
                    lastSpoken := "No route found from here." },
           ["No route found from here."])) := by
  constructor
  · intro s nodeId now hA hcur hbfs
    obtain ⟨dest, cur, path, step, seg, lc, ls⟩ := s
    simp only [] at hcur hbfs
    subst hcur
    simp [Nav1.onNodeConfirmed, hA, Nav1.startRoutingFrom, hbfs, Nav1.speak]
  · intro s nodeId now hA harr hcur hbfs
    obtain ⟨dest, cur, last, path, step, seg, lc, arr, ls⟩ := s
    simp only [] at harr hcur hbfs
    subst harr
    subst hcur
    simp [Nav3.onNodeConfirmed, hA, Nav3.startRoutingFrom, hbfs, Nav3.speak]

/-- Witness for `noRoute_announces_and_stays_unrouted` at concrete
unlocated states with unreachable destinations. -/
theorem noRoute_announces_and_stays_unrouted_witness :
    Nav1.onNodeConfirmed "two" 7
        { destinationNode := "couch", currentNode := none, path := none, pathStep := 0,
          segmentPrompted := false, lastConfirmedAt := 0, lastSpoken := "" } =
      ({ destinationNode := "couch", currentNode := some "two", path := none, pathStep := 0,
         segmentPrompted := false, lastConfirmedAt := 7,
         lastSpoken := "No route found from here." },
       ["No route found from here."]) ∧
    Nav3.onNodeConfirmed "elevator" 7 noRouteState =
      ({ noRouteState with currentNode := some "elevator", lastNode := none, path := none,
                           pathStep := 0, segmentPrompted := false, lastConfirmedAt := 7,
                           lastSpoken := "No route found from here." },
       ["No route found from here."]) :=
  ⟨noRoute_announces_and_stays_unrouted.1 _ "two" 7 (by decide) rfl (by decide),
   noRoute_announces_and_stays_unrouted.2 noRouteState "elevator" 7 (by decide) rfl rfl
     (by decide)⟩

/-- C10: in the integrated variant, when the destination is `washroom` and
the `washroom` landmark is confirmed while the user is located at some
other node `c` (covering both the expected-next-node case and the
off-route case), the generic arrival announcement is replaced by the
bathroom arrival message whose turn depends on the node the user came
from (`Go left.` from the elevator, otherwise `Go right.`), and the
machine enters the arrived state with the route cleared. -/
theorem bathroom_arrival_special :
    ∀ (s : Nav3.NavState) (now : Int) (c : String) (p : List String),
      s.arrived = false → s.destinationNode = "washroom" →
      s.currentNode = some c → s.path = some p → c ≠ "washroom" →
      (Nav3.onNodeConfirmed "washroom" now s).1.arrived = true ∧
      (Nav3.onNodeConfirmed "washroom" now s).1.path = none ∧
      (Nav3.onNodeConfirmed "washroom" now s).2 =
        ["You are at " ++ Nav3.label "washroom" ++ ". " ++
         (if c = "elevator" then "Go left." else "Go right.") ++
         " The door is in front of you. Walk with caution and open the door to enter." ++
         " Choose next destination."] := by
  intro s now c p harr hdest hcur hpath hc
  obtain ⟨dest, cur, last, path, step, seg, lc, arr, ls⟩ := s
  simp only [] at harr hdest hcur hpath
  subst harr hdest hcur hpath
  have hA : ("washroom" : String) ∈ Nav3.ACTIVE_NODES := by decide
  have hb : Nav3.bfsPath "washroom" "washroom" = some ["washroom"] := by decide
  have hcne : ¬ (("washroom" : String) = c) := fun h => hc h.symm
  by_cases hg : step < p.length - 1 ∧ p.getD (step + 1) "" = "washroom"
  · obtain ⟨h1, h2⟩ := hg
    have h2n : p[step + 1]?.getD "" = "washroom" := by simpa using h2
    simp [Nav3.onNodeConfirmed, hA, h1, h2n, Nav3.bathroomArrivalMessage,
      Nav3.finishArrival, Nav3.speak, Option.some.injEq]
  · have hgn : ¬ (step < p.length - 1 ∧ p[step + 1]?.getD "" = "washroom") := by
      intro h
      exact hg ⟨h.1, by simpa using h.2⟩
    simp [Nav3.onNodeConfirmed, hA, hgn, hcne, hb, Nav3.bathroomArrivalMessage,
      Nav3.finishArrival, Nav3.speak, Option.some.injEq]

/-- Witness for `bathroom_arrival_special`: approaching the bathroom from
the elevator as the expected next node. -/
theorem bathroom_arrival_special_witness :
    (Nav3.onNodeConfirmed "washroom" 9
      { destinationNode := "washroom", currentNode := some "elevator", lastNode := none,
        path := some ["elevator", "washroom"], pathStep := 0, segmentPrompted := false,
        lastConfirmedAt := 0, arrived := false, lastSpoken := "" }).1.arrived = true ∧
    (Nav3.onNodeConfirmed "washroom" 9
      { destinationNode := "washroom", currentNode := some "elevator", lastNode := none,
        path := some ["elevator", "washroom"], pathStep := 0, segmentPrompted := false,
        lastConfirmedAt := 0, arrived := false, lastSpoken := "" }).1.path = none ∧
    (Nav3.onNodeConfirmed "washroom" 9
      { destinationNode := "washroom", currentNode := some "elevator", lastNode := none,
        path := some ["elevator", "washroom"], pathStep := 0, segmentPrompted := false,
        lastConfirmedAt := 0, arrived := false, lastSpoken := "" }).2 =
      ["You are at " ++ Nav3.label "washroom" ++ ". " ++
       (if "elevator" = "elevator" then "Go left." else "Go right.") ++
       " The door is in front of you. Walk with caution and open the door to enter." ++
       " Choose next destination."] :=
  bathroom_arrival_special _ 9 "elevator" ["elevator", "washroom"] rfl rfl rfl rfl (by decide)

/-- C8: re-confirming the current, unchanged landmark while mid-route is
idempotent on route progress in both variants: `pathStep`, `currentNode`
and the route are unchanged, and the current instruction is re-announced. -/
theorem reconfirm_idempotent :
    (∀ (s : Nav1.NavState) (nodeId : String) (now : Int) (p : List String),
        nodeId ∈ Nav1.ACTIVE_NODES → s.currentNode = some nodeId → s.path = some p →
        s.pathStep < p.length - 1 → p.getD (s.pathStep + 1) "" ≠ nodeId →
        (Nav1.onNodeConfirmed nodeId now s).1.pathStep = s.pathStep ∧
        (Nav1.onNodeConfirmed nodeId now s).1.currentNode = some nodeId ∧
        (Nav1.onNodeConfirmed nodeId now s).1.path = some p ∧
        (Nav1.onNodeConfirmed nodeId now s).2 =
          [Nav1.getEdgeInstruction (p.getD s.pathStep "") (p.getD (s.pathStep + 1) "")]) ∧
    (∀ (s : Nav3.NavState) (nodeId : String) (now : Int) (p : List String),
        nodeId ∈ Nav3.ACTIVE_NODES → s.arrived = false →
        s.currentNode = some nodeId → s.path = some p →
        s.pathStep < p.length - 1 → p.getD (s.pathStep + 1) "" ≠ nodeId →
        (Nav3.onNodeConfirmed nodeId now s).1.pathStep = s.pathStep ∧
        (Nav3.onNodeConfirmed nodeId now s).1.currentNode = some nodeId ∧
        (Nav3.onNodeConfirmed nodeId now s).1.path = some p ∧
        (Nav3.onNodeConfirmed nodeId now s).2 =
          ["You are at " ++ Nav3.label (p.getD s.pathStep "") ++ ". " ++
           Nav3.getEdgeInstruction (p.getD s.pathStep "") (p.getD (s.pathStep + 1) "")]) := by
  constructor
  · intro s nodeId now p hA hcur hpath hstep hnext
    obtain ⟨dest, cur, path, step, seg, lc, ls⟩ := s
    simp only [] at hcur hpath hstep hnext
    subst hcur hpath
    have hgn : ¬ (step < p.length - 1 ∧ p[step + 1]?.getD "" = nodeId) := by
      intro h
      exact hnext (by simpa using h.2)
    have hge : ¬ (p.length ≤ step + 1) := by omega
    simp [Nav1.onNodeConfirmed, hA, hgn, Nav1.announceNextInstruction, hge, Nav1.speak]
  · intro s nodeId now p hA harr hcur hpath hstep hnext
    obtain ⟨dest, cur, last, path, step, seg, lc, arr, ls⟩ := s
    simp only [] at harr hcur hpath hstep hnext
    subst harr hcur hpath
    have hgn : ¬ (step < p.length - 1 ∧ p[step + 1]?.getD "" = nodeId) := by
      intro h
      exact hnext (by simpa using h.2)
    have hge : ¬ (p.length ≤ step + 1) := by omega
    simp [Nav3.onNodeConfirmed, hA, hgn, Nav3.announceNextInstruction, hge, Nav3.speak]

/-- Witness for `reconfirm_idempotent`: both machines mid-route at the
first node of a two-step route, re-confirming it. -/
theorem reconfirm_idempotent_witness :
    ((Nav1.onNodeConfirmed "two" 9
        { destinationNode := "caution", currentNode := some "two",
          path := some ["two", "washroom", "caution"], pathStep := 0,
          segmentPrompted := false, lastConfirmedAt := 0, lastSpoken := "" }).1.pathStep = 0 ∧
      (Nav1.onNodeConfirmed "two" 9
        { destinationNode := "caution", currentNode := some "two",
          path := some ["two", "washroom", "caution"], pathStep := 0,
          segmentPrompted := false, lastConfirmedAt := 0, lastSpoken := "" }).1.currentNode =
        some "two" ∧
      (Nav1.onNodeConfirmed "two" 9
        { destinationNode := "caution", currentNode := some "two",
          path := some ["two", "washroom", "caution"], pathStep := 0,
          segmentPrompted := false, lastConfirmedAt := 0, lastSpoken := "" }).1.path =
        some ["two", "washroom", "caution"] ∧
      (Nav1.onNodeConfirmed "two" 9
        { destinationNode := "caution", currentNode := some "two",
          path := some ["two", "washroom", "caution"], pathStep := 0,
          segmentPrompted := false, lastConfirmedAt := 0, lastSpoken := "" }).2 =
        [Nav1.getEdgeInstruction ((["two", "washroom", "caution"] : List String).getD 0 "")
          ((["two", "washroom", "caution"] : List String).getD 1 "")]) ∧
    ((Nav3.onNodeConfirmed "elevator" 9
        { destinationNode := "mainhall", currentNode := some "elevator", lastNode := none,
          path := some ["elevator", "washroom", "mainhall"], pathStep := 0,
          segmentPrompted := false, lastConfirmedAt := 0, arrived := false,
          lastSpoken := "" }).1.pathStep = 0 ∧
      (Nav3.onNodeConfirmed "elevator" 9
        { destinationNode := "mainhall", currentNode := some "elevator", lastNode := none,
          path := some ["elevator", "washroom", "mainhall"], pathStep := 0,
          segmentPrompted := false, lastConfirmedAt := 0, arrived := false,
          lastSpoken := "" }).1.currentNode = some "elevator" ∧
      (Nav3.onNodeConfirmed "elevator" 9
        { destinationNode := "mainhall", currentNode := some "elevator", lastNode := none,
          path := some ["elevator", "washroom", "mainhall"], pathStep := 0,
          segmentPrompted := false, lastConfirmedAt := 0, arrived := false,
          lastSpoken := "" }).1.path = some ["elevator", "washroom", "mainhall"] ∧
      (Nav3.onNodeConfirmed "elevator" 9
        { destinationNode := "mainhall", currentNode := some "elevator", lastNode := none,
          path := some ["elevator", "washroom", "mainhall"], pathStep := 0,
          segmentPrompted := false, lastConfirmedAt := 0, arrived := false,
          lastSpoken := "" }).2 =
        ["You are at " ++
         Nav3.label ((["elevator", "washroom", "mainhall"] : List String).getD 0 "") ++ ". " ++
         Nav3.getEdgeInstruction
           ((["elevator", "washroom", "mainhall"] : List String).getD 0 "")
           ((["elevator", "washroom", "mainhall"] : List String).getD 1 "")]) :=
  ⟨reconfirm_idempotent.1 _ "two" 9 ["two", "washroom", "caution"]
      (by decide) rfl rfl (by decide) (by decide),
   reconfirm_idempotent.2 _ "elevator" 9 ["elevator", "washroom", "mainhall"]
      (by decide) rfl rfl rfl (by decide) (by decide)⟩

/-- A mid-route state of the integrated variant, destination `washroom`,
located at `exitdoor` with expected next node `mainhall`. -/
def offRouteWashroomState : Nav3.NavState :=
  { destinationNode := "washroom", currentNode := some "exitdoor", lastNode := none,
    path := some ["exitdoor", "mainhall", "washroom"], pathStep := 0,
    segmentPrompted := false, lastConfirmedAt := 0, arrived := false, lastSpoken := "" }

/-- C7 counterexample: confirming `washroom` here differs from both the
current node (`exitdoor`) and the expected next node (`mainhall`), yet the
machine does not announce a re-route followed by the next instruction and
does not leave the recomputed route in place with index 0 — it announces
the bathroom arrival and clears the route. -/
theorem offRoute_claim_counterexample :
    offRouteWashroomState.currentNode = some "exitdoor" ∧
    (offRouteWashroomState.path.getD []).getD (offRouteWashroomState.pathStep + 1) "" =
      "mainhall" ∧
    (Nav3.onNodeConfirmed "washroom" 7 offRouteWashroomState).2 =
      ["You are at Bathroom. Go right. The door is in front of you. Walk with caution and open the door to enter. Choose next destination."] ∧
    (Nav3.onNodeConfirmed "washroom" 7 offRouteWashroomState).1.path = none ∧
    (Nav3.onNodeConfirmed "washroom" 7 offRouteWashroomState).1.arrived = true :=
  ⟨rfl, by decide, by decide, by decide, by decide⟩

/-- C7 amended: mid-route, a confirmed landmark that differs from both the
current node and the expected next node triggers a full re-route — the
current location becomes the confirmed landmark, the route is recomputed
from it from scratch, the route index resets to 0, and the re-route
announcement is followed (after the fixed `setTimeout` delay) by the next
instruction — provided a route exists from the landmark and is not already
finished (the landmark is not itself the destination), and, in the
integrated variant, the special bathroom-arrival case does not apply. -/
theorem offRoute_reroutes :
    (∀ (s : Nav1.NavState) (nodeId : String) (now : Int) (cur : String)
        (path0 p : List String),
        nodeId ∈ Nav1.ACTIVE_NODES → s.currentNode = some cur → s.path = some path0 →
        nodeId ≠ cur → path0.getD (s.pathStep + 1) "" ≠ nodeId →
        Nav1.bfsPath nodeId s.destinationNode = some p → 2 ≤ p.length →
        (Nav1.onNodeConfirmed nodeId now s).1.currentNode = some nodeId ∧
        (Nav1.onNodeConfirmed nodeId now s).1.path = some p ∧
        (Nav1.onNodeConfirmed nodeId now s).1.pathStep = 0 ∧
        (Nav1.onNodeConfirmed nodeId now s).2 =
          ["Re routing from " ++ Nav1.label nodeId ++ ".",
           Nav1.getEdgeInstruction (p.getD 0 "") (p.getD 1 "")]) ∧
    (∀ (s : Nav3.NavState) (nodeId : String) (now : Int) (cur : String)
        (path0 p : List String),
        nodeId ∈ Nav3.ACTIVE_NODES → s.arrived = false →
        s.currentNode = some cur → s.path = some path0 →
        nodeId ≠ cur → path0.getD (s.pathStep + 1) "" ≠ nodeId →
        Nav3.bfsPath nodeId s.destinationNode = some p → 2 ≤ p.length →
        ¬ (s.destinationNode = "washroom" ∧ nodeId = "washroom") →
        (Nav3.onNodeConfirmed nodeId now s).1.currentNode = some nodeId ∧
        (Nav3.onNodeConfirmed nodeId now s).1.path = some p ∧
        (Nav3.onNodeConfirmed nodeId now s).1.pathStep = 0 ∧
        (Nav3.onNodeConfirmed nodeId now s).2 =
          ["You are at " ++ Nav3.label nodeId ++ ". Re routing.",
           "You are at " ++ Nav3.label (p.getD 0 "") ++ ". " ++
             Nav3.getEdgeInstruction (p.getD 0 "") (p.getD 1 "")]) := by
  constructor
  · intro s nodeId now cur path0 p hA hcur hpath hne hnext hbfs hlen
    obtain ⟨dest, cur0, path1, step, seg, lc, ls⟩ := s
    simp only [] at hcur hpath hnext hbfs
    subst hcur hpath
    have hgn : ¬ (step < path0.length - 1 ∧ path0[step + 1]?.getD "" = nodeId) := by
      intro h
      exact hnext (by simpa using h.2)
    have hge : ¬ (p.length ≤ 0 + 1) := by omega
    have hz : ¬ (p.length - 1 = 0) := by omega
    simp [Nav1.onNodeConfirmed, hA, hgn, hne, hbfs, Nav1.announceNextInstruction, hge, hz,
      Nav1.speak]
  · intro s nodeId now cur path0 p hA harr hcur hpath hne hnext hbfs hlen hwashroom
    obtain ⟨dest, cur0, last, path1, step, seg, lc, arr, ls⟩ := s
    simp only [] at harr hcur hpath hnext hbfs hwashroom
    subst harr hcur hpath
    have hgn : ¬ (step < path0.length - 1 ∧ path0[step + 1]?.getD "" = nodeId) := by
      intro h
      exact hnext (by simpa using h.2)
    have hge : ¬ (p.length ≤ 0 + 1) := by omega
    have hz : ¬ (p.length - 1 = 0) := by omega
    simp [Nav3.onNodeConfirmed, hA, hgn, hne, hbfs, hwashroom,
      Nav3.announceNextInstruction, hge, hz, Nav3.speak]

/-- Witness for `offRoute_reroutes`: in both variants, mid-route towards a
destination, a landmark off the current route is confirmed. -/
theorem offRoute_reroutes_witness :
    ((Nav1.onNodeConfirmed "two" 9
        { destinationNode := "caution", currentNode := some "washroom",
          path := some ["washroom", "caution"], pathStep := 0,
          segmentPrompted := false, lastConfirmedAt := 0, lastSpoken := "" }).1.currentNode =
      some "two" ∧
      (Nav1.onNodeConfirmed "two" 9
        { destinationNode := "caution", currentNode := some "washroom",
          path := some ["washroom", "caution"], pathStep := 0,
          segmentPrompted := false, lastConfirmedAt := 0, lastSpoken := "" }).1.path =
        some ["two", "washroom", "caution"] ∧
      (Nav1.onNodeConfirmed "two" 9
        { destinationNode := "caution", currentNode := some "washroom",
          path := some ["washroom", "caution"], pathStep := 0,
          segmentPrompted := false, lastConfirmedAt := 0, lastSpoken := "" }).1.pathStep = 0 ∧
      (Nav1.onNodeConfirmed "two" 9
        { destinationNode := "caution", currentNode := some "washroom",
          path := some ["washroom", "caution"], pathStep := 0,
          segmentPrompted := false, lastConfirmedAt := 0, lastSpoken := "" }).2 =
        ["Re routing from " ++ Nav1.label "two" ++ ".",
         Nav1.getEdgeInstruction ((["two", "washroom", "caution"] : List String).getD 0 "")
           ((["two", "washroom", "caution"] : List String).getD 1 "")]) ∧
    ((Nav3.onNodeConfirmed "elevator" 9
        { destinationNode := "exitdoor", currentNode := some "mainhall", lastNode := none,
          path := some ["mainhall", "exitdoor"], pathStep := 0, segmentPrompted := false,
          lastConfirmedAt := 0, arrived := false, lastSpoken := "" }).1.currentNode =
      some "elevator" ∧
      (Nav3.onNodeConfirmed "elevator" 9
        { destinationNode := "exitdoor", currentNode := some "mainhall", lastNode := none,
          path := some ["mainhall", "exitdoor"], pathStep := 0, segmentPrompted := false,
          lastConfirmedAt := 0, arrived := false, lastSpoken := "" }).1.path =
        some ["elevator", "washroom", "mainhall", "exitdoor"] ∧
      (Nav3.onNodeConfirmed "elevator" 9
        { destinationNode := "exitdoor", currentNode := some "mainhall", lastNode := none,
          path := some ["mainhall", "exitdoor"], pathStep := 0, segmentPrompted := false,
          lastConfirmedAt := 0, arrived := false, lastSpoken := "" }).1.pathStep = 0 ∧
      (Nav3.onNodeConfirmed "elevator" 9
        { destinationNode := "exitdoor", currentNode := some "mainhall", lastNode := none,
          path := some ["mainhall", "exitdoor"], pathStep := 0, segmentPrompted := false,
          lastConfirmedAt := 0, arrived := false, lastSpoken := "" }).2 =
        ["You are at " ++ Nav3.label "elevator" ++ ". Re routing.",
         "You are at " ++
           Nav3.label ((["elevator", "washroom", "mainhall", "exitdoor"] : List String).getD 0 "") ++
           ". " ++
           Nav3.getEdgeInstruction
             ((["elevator", "washroom", "mainhall", "exitdoor"] : List String).getD 0 "")
             ((["elevator", "washroom", "mainhall", "exitdoor"] : List String).getD 1 "")]) :=
  ⟨offRoute_reroutes.1 _ "two" 9 "washroom" ["washroom", "caution"]
      ["two", "washroom", "caution"] (by decide) rfl rfl (by decide) (by decide) (by decide)
      (by decide),
   offRoute_reroutes.2 _ "elevator" 9 "mainhall" ["mainhall", "exitdoor"]
      ["elevator", "washroom", "mainhall", "exitdoor"] (by decide) rfl rfl rfl (by decide)
      (by decide) (by decide) (by decide) (by decide)⟩

theorem not_reaches_of_closed {edges : String → List Edge} {a b : String} (S : List String)
    (ha : a ∈ S) (hS : ∀ u ∈ S, ∀ v ∈ succs edges u, v ∈ S) (hb : b ∉ S) :
    ¬ Reaches edges a b :=
  fun h => hb (reaches_closed ha hS h)

theorem bfs_case {edges : String → List Edge} {a b : String} {p : List String} {n : Nat}
    (h1 : bfsPathOn edges a b = some p)
    (h2 : p.head? = some a) (h3 : p.getLast? = some b) (h4 : isWalk edges p = true)
    (h5 : p.length = n + 2) (h6 : b ∉ reachInSteps edges n a) :
    ∃ q, bfsPathOn edges a b = some q ∧ q.head? = some a ∧ q.getLast? = some b ∧
      isWalk edges q = true ∧
      ∀ w, isWalk edges w = true → w.head? = some a → w.getLast? = some b →
        q.length ≤ w.length := by
  refine ⟨p, h1, h2, h3, h4, ?_⟩
  intro w hw hh hl
  have := walk_min h6 w hw hh hl
  omega

theorem bfs_case_self {edges : String → List Edge} {a : String} :
    ∃ q, bfsPathOn edges a a = some q ∧ q.head? = some a ∧ q.getLast? = some a ∧
      isWalk edges q = true ∧
      ∀ w, isWalk edges w = true → w.head? = some a → w.getLast? = some a →
        q.length ≤ w.length := by
  refine ⟨[a], ?_, rfl, rfl, rfl, ?_⟩
  · unfold bfsPathOn
    rw [if_pos rfl]
  · intro w hw hh hl
    exact head?_some_length hh

/-- C4: on both landmark graphs of the repository, for every pair of
landmarks with the goal reachable from the start, `bfsPath` returns a
sequence that begins with the start, ends with the goal, follows directed
edges at every consecutive pair, and whose length is minimal among all
directed walks from start to goal (the graph-theoretic shortest directed
path length). -/
theorem bfsPath_shortest :
    (∀ a ∈ Nav1.nodeIds, ∀ b ∈ Nav1.nodeIds, Reaches Nav1.edges a b →
       ∃ q, Nav1.bfsPath a b = some q ∧ q.head? = some a ∧ q.getLast? = some b ∧
         isWalk Nav1.edges q = true ∧
         ∀ w, isWalk Nav1.edges w = true → w.head? = some a → w.getLast? = some b →
           q.length ≤ w.length) ∧
    (∀ a ∈ Nav3.nodeIds, ∀ b ∈ Nav3.nodeIds, Reaches Nav3.edges a b →
       ∃ q, Nav3.bfsPath a b = some q ∧ q.head? = some a ∧ q.getLast? = some b ∧
         isWalk Nav3.edges q = true ∧
         ∀ w, isWalk Nav3.edges w = true → w.head? = some a → w.getLast? = some b →
           q.length ≤ w.length) := by
  constructor
  · intro a ha b hb
    simp only [Nav1.nodeIds, List.mem_cons, List.not_mem_nil, or_false] at ha hb
    rcases ha with rfl | rfl | rfl | rfl | rfl | rfl <;>
      rcases hb with rfl | rfl | rfl | rfl | rfl | rfl <;>
      first
        | (intro hr
           exact absurd
             (reaches_closed (S := ["two", "washroom", "caution", "door"])
               (by decide) (by decide) hr) (by decide))
        | (intro hr
           exact absurd (reaches_closed (S := ["couch"]) (by decide) (by decide) hr)
             (by decide))
        | (intro hr
           exact absurd (reaches_closed (S := ["painting"]) (by decide) (by decide) hr)
             (by decide))
        | exact fun _ => bfs_case_self
        | exact fun _ =>
            bfs_case (n := 0) rfl (by decide) (by decide) (by decide) (by decide) (by decide)
        | exact fun _ =>
            bfs_case (n := 1) rfl (by decide) (by decide) (by decide) (by decide) (by decide)
        | exact fun _ =>
            bfs_case (n := 2) rfl (by decide) (by decide) (by decide) (by decide) (by decide)
  · intro a ha b hb
    simp only [Nav3.nodeIds, List.mem_cons, List.not_mem_nil, or_false] at ha hb
    rcases ha with rfl | rfl | rfl | rfl <;>
      rcases hb with rfl | rfl | rfl | rfl <;>
      first
        | exact fun _ => bfs_case_self
        | exact fun _ =>
            bfs_case (n := 0) rfl (by decide) (by decide) (by decide) (by decide) (by decide)
        | exact fun _ =>
            bfs_case (n := 1) rfl (by decide) (by decide) (by decide) (by decide) (by decide)
        | exact fun _ =>
            bfs_case (n := 2) rfl (by decide) (by decide) (by decide) (by decide) (by decide)

/-- Witness for `bfsPath_shortest`: the pair `(elevator, exitdoor)` of the
integrated graph, reachability discharged by an explicit three-step chain. -/
theorem bfsPath_shortest_witness :
    ∃ q, Nav3.bfsPath "elevator" "exitdoor" = some q ∧ q.head? = some "elevator" ∧
      q.getLast? = some "exitdoor" ∧ isWalk Nav3.edges q = true ∧
      ∀ w, isWalk Nav3.edges w = true → w.head? = some "elevator" →
        w.getLast? = some "exitdoor" → q.length ≤ w.length :=
  bfsPath_shortest.2 "elevator" (by decide) "exitdoor" (by decide)
    (reaches_of_steps (n := 3) (by decide))

/-- C5: on both landmark graphs of the repository, `bfsPath` returns `none`
exactly when the goal is not reachable from the start by following directed
edges, and every landmark is trivially reachable from itself with
`bfsPath x x = [x]`. -/
theorem bfsPath_none_iff_unreachable :
    (∀ a ∈ Nav1.nodeIds, ∀ b ∈ Nav1.nodeIds,
        (Nav1.bfsPath a b = none ↔ ¬ Reaches Nav1.edges a b)) ∧
    (∀ a ∈ Nav1.nodeIds, Nav1.bfsPath a a = some [a]) ∧
    (∀ a ∈ Nav3.nodeIds, ∀ b ∈ Nav3.nodeIds,
        (Nav3.bfsPath a b = none ↔ ¬ Reaches Nav3.edges a b)) ∧
    (∀ a ∈ Nav3.nodeIds, Nav3.bfsPath a a = some [a]) := by
  refine ⟨?_, by decide, ?_, by decide⟩
  · intro a ha b hb
    simp only [Nav1.nodeIds, List.mem_cons, List.not_mem_nil, or_false] at ha hb
    rcases ha with rfl | rfl | rfl | rfl | rfl | rfl <;>
      rcases hb with rfl | rfl | rfl | rfl | rfl | rfl <;>
      first
        | exact iff_of_false (by decide)
            (not_not_intro (reaches_of_steps (n := 3) (by decide)))
        | exact iff_of_true (by decide)
            (not_reaches_of_closed ["two", "washroom", "caution", "door"]
              (by decide) (by decide) (by decide))
        | exact iff_of_true (by decide)
            (not_reaches_of_closed ["couch"] (by decide) (by decide) (by decide))
        | exact iff_of_true (by decide)
            (not_reaches_of_closed ["painting"] (by decide) (by decide) (by decide))
  · intro a ha b hb
    simp only [Nav3.nodeIds, List.mem_cons, List.not_mem_nil, or_false] at ha hb
    rcases ha with rfl | rfl | rfl | rfl <;>
      rcases hb with rfl | rfl | rfl | rfl <;>
      exact iff_of_false (by decide)
        (not_not_intro (reaches_of_steps (n := 3) (by decide)))

/-- Witness for `bfsPath_none_iff_unreachable`: the unreachable pair
`(two, couch)` and the self pair `(two, two)` of the simple graph. -/
theorem bfsPath_none_iff_unreachable_witness :
    (Nav1.bfsPath "two" "couch" = none ↔ ¬ Reaches Nav1.edges "two" "couch") ∧
    Nav1.bfsPath "two" "two" = some ["two"] :=
  ⟨bfsPath_none_iff_unreachable.1 "two" (by decide) "couch" (by decide),
   bfsPath_none_iff_unreachable.2.1 "two" (by decide)⟩

/-- The route-index invariant of the session state (simple variant):
whenever the route is set, the index is strictly inside it. -/
def Nav1Inv (s : Nav1.NavState) : Prop :=
  ∀ p, s.path = some p → s.pathStep < p.length

/-- The route-index invariant of the session state (integrated variant). -/
def Nav3Inv (s : Nav3.NavState) : Prop :=
  ∀ p, s.path = some p → s.pathStep < p.length

theorem nav1_announce_inv (s : Nav1.NavState) (h : Nav1Inv s) :
    Nav1Inv (Nav1.announceNextInstruction s).1 := by
  obtain ⟨dest, cur?, path?, step, seg, lc, ls⟩ := s
  unfold Nav1.announceNextInstruction
  rcases path? with _ | path0
  · exact h
  · simp only []
    by_cases hge : step ≥ path0.length - 1
    · rw [if_pos hge]
      intro p hp
      simp only [Nav1.speak] at hp ⊢
      injection hp with hp2
      subst hp2
      exact h _ rfl
    · rw [if_neg hge]
      intro p hp
      simp only [Nav1.speak] at hp ⊢
      injection hp with hp2
      subst hp2
      omega

theorem nav1_start_inv (nodeId : String) (now : Int) (s : Nav1.NavState) :
    Nav1Inv (Nav1.startRoutingFrom nodeId now s).1 := by
  obtain ⟨dest, cur?, path?, step, seg, lc, ls⟩ := s
  unfold Nav1.startRoutingFrom
  simp only []
  rcases hb : Nav1.bfsPath nodeId dest with _ | p0
  · intro p hp
    simp only [Nav1.speak] at hp
    exact absurd hp (by simp)
  · apply nav1_announce_inv
    intro p hp
    simp only [Nav1.speak] at hp
    injection hp with hp2
    subst hp2
    have := bfsPathOn_some_ne_nil hb
    exact List.length_pos.mpr this

theorem nav1_confirm_inv (nodeId : String) (now : Int) (s : Nav1.NavState)
    (h : Nav1Inv s) : Nav1Inv (Nav1.onNodeConfirmed nodeId now s).1 := by
  obtain ⟨dest, cur?, path?, step, seg, lc, ls⟩ := s
  unfold Nav1.onNodeConfirmed
  by_cases hA : nodeId ∈ Nav1.ACTIVE_NODES
  · rw [if_pos hA]
    simp only []
    rcases cur? with _ | cur
    · exact nav1_start_inv nodeId now _
    · rcases path? with _ | path0
      · exact nav1_start_inv nodeId now _
      · simp only []
        by_cases hg : step < path0.length - 1 ∧ path0.getD (step + 1) "" = nodeId
        · rw [if_pos hg]
          apply nav1_announce_inv
          intro p hp
          have hp2 : path0 = p := by simpa using hp
          subst hp2
          show step + 1 < path0.length
          omega
        · rw [if_neg hg]
          by_cases hne : nodeId ≠ cur
          · rw [if_pos hne]
            rcases hb : Nav1.bfsPath nodeId dest with _ | p0
            · intro p hp
              simp only [Nav1.speak] at hp
              exact absurd hp (by simp)
            · apply nav1_announce_inv
              intro p hp
              simp only [Nav1.speak] at hp
              injection hp with hp2
              subst hp2
              have := bfsPathOn_some_ne_nil hb
              exact List.length_pos.mpr this
          · rw [if_neg hne]
            apply nav1_announce_inv
            intro p hp
            simp only [] at hp
            injection hp with hp2
            subst hp2
            exact h _ rfl
  · rw [if_neg hA]
    exact h

theorem nav3_announce_inv (s : Nav3.NavState) (h : Nav3Inv s) :
    Nav3Inv (Nav3.announceNextInstruction s).1 := by
  obtain ⟨dest, cur?, last?, path?, step, seg, lc, arr, ls⟩ := s
  unfold Nav3.announceNextInstruction
  rcases path? with _ | path0
  · exact h
  · rcases cur? with _ | c
    · exact h
    · simp only []
      by_cases hge : step ≥ path0.length - 1
      · rw [if_pos hge]
        intro p hp
        simp only [Nav3.finishArrival, Nav3.speak] at hp
        exact absurd hp (by simp)
      · rw [if_neg hge]
        intro p hp
        simp only [Nav3.speak] at hp ⊢
        injection hp with hp2
        subst hp2
        omega

theorem nav3_start_inv (nodeId : String) (now : Int) (s : Nav3.NavState) :
    Nav3Inv (Nav3.startRoutingFrom nodeId now s).1 := by
  obtain ⟨dest, cur?, last?, path?, step, seg, lc, arr, ls⟩ := s
  unfold Nav3.startRoutingFrom
  simp only []
  rcases hb : Nav3.bfsPath nodeId dest with _ | p0
  · intro p hp
    simp only [Nav3.speak] at hp
    exact absurd hp (by simp)
  · apply nav3_announce_inv
    intro p hp
    simp only [] at hp
    injection hp with hp2
    subst hp2
    have := bfsPathOn_some_ne_nil hb
    exact List.length_pos.mpr this

theorem nav3_confirm_inv (nodeId : String) (now : Int) (s : Nav3.NavState)
    (h : Nav3Inv s) : Nav3Inv (Nav3.onNodeConfirmed nodeId now s).1 := by
  obtain ⟨dest, cur?, last?, path?, step, seg, lc, arr, ls⟩ := s
  unfold Nav3.onNodeConfirmed
  by_cases hA : nodeId ∈ Nav3.ACTIVE_NODES
  · rw [if_pos hA]
    cases arr with
    | true => exact h
    | false =>
      rw [if_neg (by simp : ¬ (false = true))]
      simp only []
      rcases cur? with _ | cur
      · exact nav3_start_inv nodeId now _
      · rcases path? with _ | path0
        · exact nav3_start_inv nodeId now _
        · simp only []
          by_cases hg : step < path0.length - 1 ∧ path0.getD (step + 1) "" = nodeId
          · rw [if_pos hg]
            by_cases hw : dest = "washroom" ∧ nodeId = "washroom"
            · rw [if_pos hw]
              intro p hp
              simp only [Nav3.bathroomArrivalMessage, Nav3.finishArrival, Nav3.speak] at hp
              exact absurd hp (by simp)
            · rw [if_neg hw]
              apply nav3_announce_inv
              intro p hp
              have hp2 : path0 = p := by simpa using hp
              subst hp2
              show step + 1 < path0.length
              omega
          · rw [if_neg hg]
            by_cases hne : nodeId ≠ cur
            · rw [if_pos hne]
              rcases hb : Nav3.bfsPath nodeId dest with _ | p0
              · intro p hp
                simp only [Nav3.speak] at hp
                exact absurd hp (by simp)
              · by_cases hw : dest = "washroom" ∧ nodeId = "washroom"
                · rw [if_pos hw]
                  intro p hp
                  simp only [Nav3.bathroomArrivalMessage, Nav3.finishArrival,
                    Nav3.speak] at hp
                  exact absurd hp (by simp)
                · rw [if_neg hw]
                  apply nav3_announce_inv
                  intro p hp
                  simp only [Nav3.speak] at hp
                  injection hp with hp2
                  subst hp2
                  have := bfsPathOn_some_ne_nil hb
                  exact List.length_pos.mpr this
            · rw [if_neg hne]
              apply nav3_announce_inv
              intro p hp
              simp only [] at hp
              injection hp with hp2
              subst hp2
              exact h _ rfl
  · rw [if_neg hA]
    exact h

/-- C3: in every state reachable from the initial session state through
the three event handlers (landmark confirmed, destination changed, reset),
whenever the route is set the route index lies strictly inside it, in both
variants.  (`pathStep` is a natural number, so `0 ≤ pathStep` holds by
type.) -/
theorem routeIndex_in_bounds :
    (∀ s, Nav1.ReachableState s → ∀ p, s.path = some p → s.pathStep < p.length) ∧
    (∀ s, Nav3.ReachableState s → ∀ p, s.path = some p → s.pathStep < p.length) := by
  constructor
  · intro s hs
    show Nav1Inv s
    induction hs with
    | init => intro p hp; exact absurd hp (by simp [Nav1.initState])
    | confirm nodeId now _ ih => exact nav1_confirm_inv nodeId now _ ih
    | setDest newDest _ ih =>
      intro p hp
      simp only [Nav1.setDestinationHandler, Nav1.speak] at hp
      exact absurd hp (by simp)
    | reset _ ih =>
      intro p hp
      simp only [Nav1.resetNav, Nav1.speak] at hp
      exact absurd hp (by simp)
  · intro s hs
    show Nav3Inv s
    induction hs with
    | init => intro p hp; exact absurd hp (by simp [Nav3.initState])
    | confirm nodeId now _ ih => exact nav3_confirm_inv nodeId now _ ih
    | setDest newDest _ ih =>
      intro p hp
      simp only [Nav3.setDestinationHandler, Nav3.speak] at hp
      exact absurd hp (by simp)
    | reset _ ih =>
      intro p hp
      simp only [Nav3.resetNav, Nav3.speak] at hp
      exact absurd hp (by simp)

/-- Witness for `routeIndex_in_bounds`: the state after the first
confirmation of a concrete run of the integrated variant. -/
theorem routeIndex_in_bounds_witness :
    (Nav3.onNodeConfirmed "elevator" 1 Nav3.initState).1.pathStep <
      (["elevator", "washroom", "mainhall", "exitdoor"] : List String).length :=
  routeIndex_in_bounds.2 (Nav3.onNodeConfirmed "elevator" 1 Nav3.initState).1
    (Nav3.ReachableState.confirm "elevator" 1 Nav3.ReachableState.init)
    ["elevator", "washroom", "mainhall", "exitdoor"] (by decide)
